import Mathlib

/-!
Verification development for the identifier-qualification and
credential-indexing layer implemented in
packages/anoncreds/src/utils/w3cAnonCredsUtils.ts.

The embedding follows the TypeScript source closely.  JavaScript objects
used as key/value maps are modelled as association lists with
JavaScript semantics: property read returns the first binding (keys of a
real JS object are unique), property write overwrites in place or appends,
and an object-literal entry whose value is the JavaScript undefined still
creates the key.  Thrown errors are modelled with an explicit result type:
CredoError carries its message string, and an unguarded member access on
an undefined value is a distinct runtime fault.
-/

/-- Association list standing for a JavaScript object used as a map. -/
abbrev JSObj (α : Type) := List (String × α)

/-- Runtime value stored in a tag mapping: a string, a boolean, or the
JavaScript undefined value. -/
inductive TagValue where
  | str (s : String)
  | tbool (b : Bool)
  | undefined
deriving DecidableEq, Repr

/-- JavaScript truthiness for the tag values that occur in this code:
a string is truthy when non-empty, a boolean is its own truth value, and
undefined is falsy. -/
def TagValue.truthy : TagValue → Bool
  | .str s => s != ""
  | .tbool b => b
  | .undefined => false

/-- Property read on a JS object: the binding of the first matching key. -/
def jsLookup {α : Type} : JSObj α → String → Option α
  | [], _ => none
  | (k2, v) :: rest, k => if k2 = k then some v else jsLookup rest k

/-- Key-presence test on a JS object. -/
def jsHasKey {α : Type} (l : JSObj α) (k : String) : Bool :=
  (jsLookup l k).isSome

/-- Property write on a JS object: overwrite the existing binding in place,
or append a new binding at the end. -/
def jsSet {α : Type} : JSObj α → String → α → JSObj α
  | [], k, v => [(k, v)]
  | (k2, v2) :: rest, k, v =>
    if k2 = k then (k2, v) :: rest else (k2, v2) :: jsSet rest k v

/-- Property read on a tag object; a missing key reads as undefined. -/
def jsGet (l : JSObj TagValue) (k : String) : TagValue :=
  (jsLookup l k).getD .undefined

/-- Key present with a value other than undefined. -/
def tagDefined (l : JSObj TagValue) (k : String) : Bool :=
  jsGet l k != .undefined

/-- Nullish coalescing `x ?? null` applied to a tag read: undefined
collapses to the null (absent) case. -/
def tagOrNull (v : TagValue) : Option TagValue :=
  match v with
  | .undefined => none
  | w => some w

/-- Error raised during projection or tag derivation. -/
inductive Err where
  | credo (message : String)
  | typeFault
deriving DecidableEq, Repr

/-- Result of running a piece of the translated code: a value, or a
thrown error. -/
inductive ExecResult (α : Type) where
  | ok (value : α)
  | thrown (e : Err)
deriving DecidableEq, Repr

/-- Prefix test on the underlying character data, used by the
spec-modelled identifier predicates. -/
def strBeginsWith (p s : String) : Bool :=
  p.data.isPrefixOf s.data

/-- Modelled from the spec: isIndyDid from ./indyIdentifiers is not under
src; a qualified did:indy identifier embeds the indy method, so the
predicate recognizes the did:indy: prefix. -/
def isIndyDid (did : String) : Bool :=
  strBeginsWith "did:indy:" did

/-- Modelled from the spec: an unqualified legacy identifier is a bare
identifier with no method prefix. -/
def isUnqualifiedIndyDid (identifier : String) : Bool :=
  !(strBeginsWith "did:" identifier)

/-- Modelled from the spec: isUnqualifiedCredentialDefinitionId from
./indyIdentifiers is not under src; it recognizes the bare legacy shape. -/
def isUnqualifiedCredentialDefinitionId (identifier : String) : Bool :=
  isUnqualifiedIndyDid identifier

/-- Modelled from the spec: isUnqualifiedRevocationRegistryId from
./indyIdentifiers is not under src; it recognizes the bare legacy shape. -/
def isUnqualifiedRevocationRegistryId (identifier : String) : Bool :=
  isUnqualifiedIndyDid identifier

/-- Modelled from the spec: getQualifiedDidIndyDid from ./indyIdentifiers
is not under src; qualification inserts the method and namespace in front
of the bare identifier. -/
def getQualifiedDidIndyDid (identifier : String) (namespaceName : String) : String :=
  "did:indy:" ++ namespaceName ++ ":" ++ identifier

/-- Modelled from the spec: getUnQualifiedDidIndyDid from
./indyIdentifiers is not under src; unqualification drops the method and
namespace segments of a did:indy identifier and leaves any other
identifier unchanged (the skip policy of the spec). -/
def getUnQualifiedDidIndyDid (identifier : String) : String :=
  if strBeginsWith "did:indy:" identifier then
    String.mk (((identifier.data.drop 9).dropWhile (fun c => c != ':')).drop 1)
  else identifier

/-- Anoncreds schema as carried inside store-credential options. -/
structure AnonCredsSchema where
  issuerId : String
  name : String
  version : String
  attrNames : List String
deriving DecidableEq, Repr

/-- Anoncreds credential definition; only its identifier fields and an
opaque remainder are relevant to qualification. -/
structure AnonCredsCredentialDefinition where
  issuerId : String
  schemaId : String
  tag : String
deriving DecidableEq, Repr

/-- Anoncreds revocation registry definition; only its identifier fields
and an opaque remainder are relevant to qualification. -/
structure AnonCredsRevocationRegistryDefinition where
  issuerId : String
  credDefId : String
  tag : String
deriving DecidableEq, Repr

/-- Modelled from the spec: the schema-shape predicate from
./indyIdentifiers is not under src; a nested structure is unqualified when
its identifier field is in the bare legacy form. -/
def isUnqualifiedDidIndySchema (schema : AnonCredsSchema) : Bool :=
  isUnqualifiedIndyDid schema.issuerId

/-- Modelled from the spec: qualification of a nested schema rewrites its
identifier field and leaves the other fields untouched. -/
def getQualifiedDidIndySchema (schema : AnonCredsSchema) (namespaceName : String) :
    AnonCredsSchema :=
  { schema with issuerId := getQualifiedDidIndyDid schema.issuerId namespaceName }

/-- Modelled from the spec: the credential-definition-shape predicate from
./indyIdentifiers is not under src. -/
def isUnqualifiedDidIndyCredentialDefinition
    (credentialDefinition : AnonCredsCredentialDefinition) : Bool :=
  isUnqualifiedIndyDid credentialDefinition.issuerId

/-- Modelled from the spec: qualification of a nested credential
definition rewrites every identifier field inside it. -/
def getQualifiedDidIndyCredentialDefinition
    (credentialDefinition : AnonCredsCredentialDefinition) (namespaceName : String) :
    AnonCredsCredentialDefinition :=
  { credentialDefinition with
    issuerId := getQualifiedDidIndyDid credentialDefinition.issuerId namespaceName,
    schemaId := getQualifiedDidIndyDid credentialDefinition.schemaId namespaceName }

/-- Modelled from the spec: the revocation-registry-definition-shape
predicate from ./indyIdentifiers is not under src. -/
def isUnqualifiedDidIndyRevocationRegistryDefinition
    (definition : AnonCredsRevocationRegistryDefinition) : Bool :=
  isUnqualifiedIndyDid definition.issuerId

/-- Modelled from the spec: qualification of a nested revocation registry
definition rewrites every identifier field inside it. -/
def getQualifiedDidIndyRevocationRegistryDefinition
    (definition : AnonCredsRevocationRegistryDefinition) (namespaceName : String) :
    AnonCredsRevocationRegistryDefinition :=
  { definition with
    issuerId := getQualifiedDidIndyDid definition.issuerId namespaceName,
    credDefId := getQualifiedDidIndyDid definition.credDefId namespaceName }

/-- Entry of the value table of a native anoncreds credential.  Only the
raw string form is read by the code under verification. -/
structure ValueEntry where
  raw : String
deriving DecidableEq, Repr

/-- Modelled from the spec: mapAttributeRawValuesToAnonCredsCredentialValues
from ./credential is not under src; it is the raw-value encoder shared
with issuance, mapping each claim to an entry whose raw form is the claim
value as a string.  The numeric encoded companion is never read by the
code under verification and is omitted. -/
def mapAttributeRawValuesToAnonCredsCredentialValues (claims : JSObj String) :
    JSObj ValueEntry :=
  claims.map (fun p => (p.1, ⟨p.2⟩))

/-- Credential subject of a W3C credential: either a single structured
object with an optional claims map, or an array of subjects. -/
inductive CredentialSubject where
  | obj (claims : Option (JSObj String))
  | arr (subjects : List (Option (JSObj String)))
deriving DecidableEq, Repr

/-- W3C credential document, restricted to the fields the code reads. -/
structure W3cCredential where
  credentialSubject : CredentialSubject
  issuerId : String
deriving DecidableEq, Repr

/-- Side-table metadata entry stored under the anoncreds metadata key of a
W3C credential record.  The field set is the one the src code reads. -/
structure W3cAnoncredsCredentialMetadata where
  credentialId : String
  credentialRevocationId : Option String
  linkSecretId : String
  methodName : String
deriving DecidableEq, Repr

/-- W3C credential record (variant B), restricted to what the src code
reads: the credential document, the metadata side-table entry under the
anoncreds key, and the raw tag mapping returned by getTags. -/
structure W3cCredentialRecord where
  credential : W3cCredential
  anoncredsMetadata : Option W3cAnoncredsCredentialMetadata
  tags : JSObj TagValue
deriving DecidableEq, Repr

/-- Native anoncreds credential (variant A payload).  The record type is
not under src, so the object is modelled with the fields the src code
reads plus an explicit list of the enumerable own keys of the credential
object, which is what a JavaScript for..in loop iterates. -/
structure AnonCredsCredential where
  enumKeys : List String
  schema_id : String
  cred_def_id : String
  rev_reg_id : Option String
  values : JSObj ValueEntry
deriving DecidableEq, Repr

/-- Native anoncreds credential record (variant A). -/
structure AnonCredsCredentialRecord where
  credential : AnonCredsCredential
  credentialId : String
  credentialRevocationId : Option String
  methodName : String
  linkSecretId : String
deriving DecidableEq, Repr

/-- Canonical credential-info projection.  Identifier fields read off the
tag store keep their runtime tag value; the native variant stores plain
strings there. -/
structure AnonCredsCredentialInfo where
  attributes : JSObj String
  credentialId : String
  credentialDefinitionId : TagValue
  schemaId : TagValue
  credentialRevocationId : Option String
  revocationRegistryId : Option TagValue
  methodName : String
  linkSecretId : String
deriving DecidableEq, Repr

/-- The seven required structural tag keys, in the order the source
checks them. -/
def requiredTagKeys : List String :=
  ["anonCredsLinkSecretId", "anonCredsMethodName", "anonCredsSchemaId",
   "anonCredsSchemaName", "anonCredsSchemaVersion", "anonCredsSchemaIssuerId",
   "anonCredsCredentialDefinitionId"]

/-- Translation of getAnonCredsTagsFromRecord: read the metadata entry,
return undefined when absent; require the seven structural tags to be
truthy, returning undefined otherwise; then keep only the tag entries
whose key carries the anonCreds prefix. -/
def getAnonCredsTagsFromRecord (record : W3cCredentialRecord) :
    Option (JSObj TagValue) :=
  match record.anoncredsMetadata with
  | none => none
  | some _ =>
    let tags := record.tags
    if !(jsGet tags "anonCredsLinkSecretId").truthy ||
       !(jsGet tags "anonCredsMethodName").truthy ||
       !(jsGet tags "anonCredsSchemaId").truthy ||
       !(jsGet tags "anonCredsSchemaName").truthy ||
       !(jsGet tags "anonCredsSchemaVersion").truthy ||
       !(jsGet tags "anonCredsSchemaIssuerId").truthy ||
       !(jsGet tags "anonCredsCredentialDefinitionId").truthy then
      none
    else
      some (tags.filter (fun p => strBeginsWith "anonCreds" p.1))

/-- Translation of anoncredsCredentialInfoFromW3cRecord. -/
def anoncredsCredentialInfoFromW3cRecord (w3cCredentialRecord : W3cCredentialRecord) :
    ExecResult AnonCredsCredentialInfo :=
  match w3cCredentialRecord.credential.credentialSubject with
  | .arr _ => .thrown (.credo "Credential subject must be an object, not an array.")
  | .obj claims? =>
    match getAnonCredsTagsFromRecord w3cCredentialRecord with
    | none => .thrown (.credo "AnonCreds tags not found on credential record.")
    | some anonCredsTags =>
      match w3cCredentialRecord.anoncredsMetadata with
      | none => .thrown (.credo "AnonCreds metadata not found on credential record.")
      | some anoncredsCredentialMetadata =>
        .ok {
          attributes := claims?.getD [],
          credentialId := anoncredsCredentialMetadata.credentialId,
          credentialDefinitionId := jsGet anonCredsTags "anonCredsCredentialDefinitionId",
          schemaId := jsGet anonCredsTags "anonCredsSchemaId",
          credentialRevocationId := anoncredsCredentialMetadata.credentialRevocationId,
          revocationRegistryId := tagOrNull (jsGet anonCredsTags "anonCredsRevocationRegistryId"),
          methodName := anoncredsCredentialMetadata.methodName,
          linkSecretId := anoncredsCredentialMetadata.linkSecretId }

/-- Attribute-rebuilding loop of anoncredsCredentialInfoFromAnoncredsRecord:
for each enumerable key of the credential object, read the raw value off
the value table; reading the raw field of an absent entry is a runtime
fault. -/
def attributesLoop (values : JSObj ValueEntry) :
    List String → JSObj String → ExecResult (JSObj String)
  | [], acc => .ok acc
  | k :: ks, acc =>
    match jsLookup values k with
    | none => .thrown .typeFault
    | some entry => attributesLoop values ks (jsSet acc k entry.raw)

/-- Translation of anoncredsCredentialInfoFromAnoncredsRecord. -/
def anoncredsCredentialInfoFromAnoncredsRecord
    (anonCredsCredentialRecord : AnonCredsCredentialRecord) :
    ExecResult AnonCredsCredentialInfo :=
  match attributesLoop anonCredsCredentialRecord.credential.values
      anonCredsCredentialRecord.credential.enumKeys [] with
  | .thrown e => .thrown e
  | .ok attributes =>
    .ok {
      attributes := attributes,
      credentialDefinitionId := .str anonCredsCredentialRecord.credential.cred_def_id,
      credentialId := anonCredsCredentialRecord.credentialId,
      schemaId := .str anonCredsCredentialRecord.credential.schema_id,
      credentialRevocationId := anonCredsCredentialRecord.credentialRevocationId,
      revocationRegistryId := anonCredsCredentialRecord.credential.rev_reg_id.map .str,
      methodName := anonCredsCredentialRecord.methodName,
      linkSecretId := anonCredsCredentialRecord.linkSecretId }

/-- Stored representation: the closed union of the two record variants. -/
inductive CredentialRecord where
  | w3c (record : W3cCredentialRecord)
  | native (record : AnonCredsCredentialRecord)
deriving DecidableEq, Repr

/-- Translation of getAnoncredsCredentialInfoFromRecord: the instanceof
dispatch over the two variants. -/
def getAnoncredsCredentialInfoFromRecord (credentialRecord : CredentialRecord) :
    ExecResult AnonCredsCredentialInfo :=
  match credentialRecord with
  | .w3c record => anoncredsCredentialInfoFromW3cRecord record
  | .native record => anoncredsCredentialInfoFromAnoncredsRecord record

/-- Revocation registry part of store-credential options. -/
structure AnonCredsRevocationRegistryInput where
  definition : AnonCredsRevocationRegistryDefinition
  id : String
deriving DecidableEq, Repr

/-- Store-credential options.  The request metadata and the raw credential
payload are opaque pass-through values. -/
structure StoreCredentialOptions where
  credentialRequestMetadata : String
  credentialId : Option String
  credential : String
  credentialDefinitionId : String
  schema : AnonCredsSchema
  credentialDefinition : AnonCredsCredentialDefinition
  revocationRegistry : Option AnonCredsRevocationRegistryInput
deriving DecidableEq, Repr

/-- Translation of getStoreCredentialOptions.  The fresh uuid produced by
utils.uuid is impure and is passed in as the generatedId argument. -/
def getStoreCredentialOptions (options : StoreCredentialOptions)
    (indyNamespace : String) (generatedId : String) : StoreCredentialOptions :=
  { credentialRequestMetadata := options.credentialRequestMetadata,
    credentialId := some generatedId,
    credential := options.credential,
    credentialDefinitionId :=
      if isUnqualifiedCredentialDefinitionId options.credentialDefinitionId then
        getQualifiedDidIndyDid options.credentialDefinitionId indyNamespace
      else options.credentialDefinitionId,
    credentialDefinition :=
      if isUnqualifiedDidIndyCredentialDefinition options.credentialDefinition then
        getQualifiedDidIndyCredentialDefinition options.credentialDefinition indyNamespace
      else options.credentialDefinition,
    schema :=
      if isUnqualifiedDidIndySchema options.schema then
        getQualifiedDidIndySchema options.schema indyNamespace
      else options.schema,
    revocationRegistry :=
      match options.revocationRegistry with
      | none => none
      | some revocationRegistry =>
        some {
          definition :=
            if isUnqualifiedDidIndyRevocationRegistryDefinition revocationRegistry.definition then
              getQualifiedDidIndyRevocationRegistryDefinition revocationRegistry.definition indyNamespace
            else revocationRegistry.definition,
          id :=
            if isUnqualifiedRevocationRegistryId revocationRegistry.id then
              getQualifiedDidIndyDid revocationRegistry.id indyNamespace
            else revocationRegistry.id } }

/-- Dynamic tag key anonCredsAttr::name::value for a claim name. -/
def attrValueKey (name : String) : String :=
  "anonCredsAttr::" ++ (name ++ "::value")

/-- Dynamic tag key anonCredsAttr::name::marker for a claim name. -/
def attrMarkerKey (name : String) : String :=
  "anonCredsAttr::" ++ (name ++ "::marker")

/-- Option into a tag value: an absent optional input appears in the
object literal as a key holding undefined. -/
def optTV : Option String → TagValue
  | none => .undefined
  | some s => .str s

/-- JavaScript truthiness of an optional string input: the undefined value
and the empty string are falsy, every other string is truthy. -/
def optStrTruthy : Option String → Bool
  | none => false
  | some s => s != ""

/-- Options bundle of getW3cRecordAnonCredsTags. -/
structure W3cTagsOptions where
  w3cCredentialRecord : W3cCredentialRecord
  schemaId : String
  schemaName : String
  schemaVersion : String
  schemaIssuerId : String
  credentialDefinitionId : String
  revocationRegistryId : Option String
  credentialRevocationId : Option String
  linkSecretId : String
  methodName : String
deriving DecidableEq, Repr

/-- Fixed nine entries of the tag object literal, in source order.  An
absent optional input still creates its key, holding undefined. -/
def w3cBaseTags (options : W3cTagsOptions) : JSObj TagValue :=
  [("anonCredsLinkSecretId", .str options.linkSecretId),
   ("anonCredsCredentialDefinitionId", .str options.credentialDefinitionId),
   ("anonCredsSchemaId", .str options.schemaId),
   ("anonCredsSchemaName", .str options.schemaName),
   ("anonCredsSchemaIssuerId", .str options.schemaIssuerId),
   ("anonCredsSchemaVersion", .str options.schemaVersion),
   ("anonCredsMethodName", .str options.methodName),
   ("anonCredsRevocationRegistryId", optTV options.revocationRegistryId),
   ("anonCredsCredentialRevocationId", optTV options.credentialRevocationId)]

/-- Five unqualified mirror entries spread into the literal when the
issuer id is an indy did, in source order.  The revocation entry uses the
ternary of the source, a JavaScript truthiness test on the optional
revocation registry id: the undefined value and the empty string both
select the undefined branch. -/
def w3cMirrorTags (options : W3cTagsOptions) : JSObj TagValue :=
  [("anonCredsUnqualifiedIssuerId",
     .str (getUnQualifiedDidIndyDid options.w3cCredentialRecord.credential.issuerId)),
   ("anonCredsUnqualifiedCredentialDefinitionId",
     .str (getUnQualifiedDidIndyDid options.credentialDefinitionId)),
   ("anonCredsUnqualifiedSchemaId", .str (getUnQualifiedDidIndyDid options.schemaId)),
   ("anonCredsUnqualifiedSchemaIssuerId",
     .str (getUnQualifiedDidIndyDid options.schemaIssuerId)),
   ("anonCredsUnqualifiedRevocationRegistryId",
     match options.revocationRegistryId with
     | some rid =>
       if rid != "" then .str (getUnQualifiedDidIndyDid rid) else .undefined
     | none => .undefined)]

/-- Final loop of getW3cRecordAnonCredsTags: assign the value tag and the
marker tag for each entry of the credential-values map. -/
def setAttrTags (start : JSObj TagValue) (values : JSObj ValueEntry) : JSObj TagValue :=
  values.foldl
    (fun acc p =>
      jsSet (jsSet acc (attrValueKey p.1) (.str p.2.raw)) (attrMarkerKey p.1) (.tbool true))
    start

/-- Translation of getW3cRecordAnonCredsTags: build the object literal
with its nine fixed entries, spread in the five unqualified mirror entries
when the issuer id is an indy did, fail when the credential subject is an
array, and finally assign one value/marker pair per claim. -/
def getW3cRecordAnonCredsTags (options : W3cTagsOptions) :
    ExecResult (JSObj TagValue) :=
  let issuerId := options.w3cCredentialRecord.credential.issuerId
  let anonCredsCredentialRecordTags : JSObj TagValue :=
    if isIndyDid issuerId then w3cBaseTags options ++ w3cMirrorTags options
    else w3cBaseTags options
  match options.w3cCredentialRecord.credential.credentialSubject with
  | .arr _ => .thrown (.credo "Credential subject must be an object, not an array.")
  | .obj claims? =>
    let values := mapAttributeRawValuesToAnonCredsCredentialValues (claims?.getD [])
    .ok (setAttrTags anonCredsCredentialRecordTags values)

/-- Dynamic tag pairs produced for a claims map, one value/marker pair per
claim, in claim order. -/
def attrPairTags (claims : JSObj String) : JSObj TagValue :=
  claims.flatMap
    (fun p => [(attrValueKey p.1, TagValue.str p.2), (attrMarkerKey p.1, TagValue.tbool true)])

/-- Projection dropping the credential id, used to compare the two record
variants on every other field. -/
def eraseCredentialId (info : AnonCredsCredentialInfo) : AnonCredsCredentialInfo :=
  { info with credentialId := "" }

/-- Concrete native record used by the witness for C1. -/
def c1WitnessRecord : AnonCredsCredentialRecord :=
  { credential :=
      { enumKeys := ["name", "age"],
        schema_id := "schema-1",
        cred_def_id := "creddef-1",
        rev_reg_id := none,
        values := [("name", ⟨"Alice"⟩), ("age", ⟨"23"⟩)] },
    credentialId := "credential-1",
    credentialRevocationId := none,
    methodName := "anoncreds",
    linkSecretId := "link-secret-1" }

/-- Concrete native record used by the witness for C9: the enumerable key
has no entry in the value table. -/
def c9WitnessRecord : AnonCredsCredentialRecord :=
  { credential :=
      { enumKeys := ["name"],
        schema_id := "schema-1",
        cred_def_id := "creddef-1",
        rev_reg_id := none,
        values := [] },
    credentialId := "credential-9",
    credentialRevocationId := none,
    methodName := "anoncreds",
    linkSecretId := "link-secret-9" }

/-- Concrete derivation options used by the witness for C6: the subject is
an array of two objects. -/
def c6WitnessOptions : W3cTagsOptions :=
  { w3cCredentialRecord :=
      { credential :=
          { credentialSubject := .arr [some [("a", "1")], some [("b", "2")]],
            issuerId := "did:web:example" },
        anoncredsMetadata := none,
        tags := [] },
    schemaId := "schema-6",
    schemaName := "degree",
    schemaVersion := "1.0",
    schemaIssuerId := "issuer-6",
    credentialDefinitionId := "creddef-6",
    revocationRegistryId := none,
    credentialRevocationId := none,
    linkSecretId := "link-secret-6",
    methodName := "anoncreds" }

/-- Concrete record used by the witness for C6, with a two-object array
subject. -/
def c6WitnessRecord : W3cCredentialRecord :=
  { credential :=
      { credentialSubject := .arr [some [("a", "1")], some [("b", "2")]],
        issuerId := "did:web:example" },
    anoncredsMetadata := some ⟨"credential-6", none, "link-secret-6", "anoncreds"⟩,
    tags := [] }

/-- Concrete variant-B record with complete, truthy tags but no metadata
entry, deciding C5. -/
def c5CexRecord : W3cCredentialRecord :=
  { credential :=
      { credentialSubject := .obj (some [("name", "Alice")]),
        issuerId := "did:web:example" },
    anoncredsMetadata := none,
    tags :=
      [("anonCredsLinkSecretId", .str "link-secret-5"),
       ("anonCredsMethodName", .str "anoncreds"),
       ("anonCredsSchemaId", .str "schema-5"),
       ("anonCredsSchemaName", .str "degree"),
       ("anonCredsSchemaVersion", .str "1.0"),
       ("anonCredsSchemaIssuerId", .str "issuer-5"),
       ("anonCredsCredentialDefinitionId", .str "creddef-5")] }

/-- Concrete fully-qualified store-credential options for the C8 witness. -/
def c8WitnessOptions : StoreCredentialOptions :=
  { credentialRequestMetadata := "request-metadata",
    credentialId := none,
    credential := "raw-credential",
    credentialDefinitionId := "did:indy:sovrin:cd-8",
    schema := ⟨"did:indy:sovrin:issuer-8", "degree", "1.0", ["name"]⟩,
    credentialDefinition :=
      ⟨"did:indy:sovrin:issuer-8", "did:indy:sovrin:schema-8", "tag-8"⟩,
    revocationRegistry :=
      some ⟨⟨"did:indy:sovrin:issuer-8", "did:indy:sovrin:cd-8", "rev-8"⟩,
        "did:indy:sovrin:rev-8"⟩ }

/-- Concrete record deciding C7: metadata present, all seven required tag
keys present, one required tag holding the empty string. -/
def c7CexRecord : W3cCredentialRecord :=
  { credential :=
      { credentialSubject := .obj (some []), issuerId := "did:web:example" },
    anoncredsMetadata := some ⟨"credential-7", none, "link-secret-7", "anoncreds"⟩,
    tags :=
      [("anonCredsLinkSecretId", .str ""),
       ("anonCredsMethodName", .str "anoncreds"),
       ("anonCredsSchemaId", .str "schema-7"),
       ("anonCredsSchemaName", .str "degree"),
       ("anonCredsSchemaVersion", .str "1.0"),
       ("anonCredsSchemaIssuerId", .str "issuer-7"),
       ("anonCredsCredentialDefinitionId", .str "creddef-7")] }

/-- Concrete well-tagged record for the C7 witness. -/
def c7WitnessRecord : W3cCredentialRecord :=
  { credential :=
      { credentialSubject := .obj (some [("name", "Alice")]),
        issuerId := "did:web:example" },
    anoncredsMetadata := some ⟨"credential-7w", none, "link-secret-7w", "anoncreds"⟩,
    tags :=
      [("someOtherTag", .str "other"),
       ("anonCredsLinkSecretId", .str "link-secret-7w"),
       ("anonCredsMethodName", .str "anoncreds"),
       ("anonCredsSchemaId", .str "schema-7w"),
       ("anonCredsSchemaName", .str "degree"),
       ("anonCredsSchemaVersion", .str "1.0"),
       ("anonCredsSchemaIssuerId", .str "issuer-7w"),
       ("anonCredsCredentialDefinitionId", .str "creddef-7w")] }

/-- Concrete record for the C10 witness: complete key set, empty link
secret tag. -/
def c10WitnessRecord : W3cCredentialRecord :=
  { credential :=
      { credentialSubject := .obj (some [("name", "Alice")]),
        issuerId := "did:web:example" },
    anoncredsMetadata := some ⟨"credential-10", none, "link-secret-10", "anoncreds"⟩,
    tags :=
      [("anonCredsLinkSecretId", .str ""),
       ("anonCredsMethodName", .str "anoncreds"),
       ("anonCredsSchemaId", .str "schema-10"),
       ("anonCredsSchemaName", .str "degree"),
       ("anonCredsSchemaVersion", .str "1.0"),
       ("anonCredsSchemaIssuerId", .str "issuer-10"),
       ("anonCredsCredentialDefinitionId", .str "creddef-10")] }

/-- Concrete derivation options with an indy issuer and a revocation
registry for the C4 witness. -/
def c4WitnessOptions : W3cTagsOptions :=
  { w3cCredentialRecord :=
      { credential :=
          { credentialSubject := .obj (some [("name", "Alice")]),
            issuerId := "did:indy:sovrin:issuer-4" },
        anoncredsMetadata := none,
        tags := [] },
    schemaId := "did:indy:sovrin:schema-4",
    schemaName := "degree",
    schemaVersion := "1.0",
    schemaIssuerId := "did:indy:sovrin:issuer-4",
    credentialDefinitionId := "did:indy:sovrin:cd-4",
    revocationRegistryId := some "did:indy:sovrin:rev-4",
    credentialRevocationId := some "1",
    linkSecretId := "link-secret-4",
    methodName := "anoncreds" }

/-- Tag set the deriver produces for the C4 witness options. -/
def c4WitnessTags : JSObj TagValue :=
  match getW3cRecordAnonCredsTags c4WitnessOptions with
  | .ok l => l
  | .thrown _ => []

/-- Key list of the nine fixed entries. -/
def w3cBaseTagKeys : List String :=
  ["anonCredsLinkSecretId", "anonCredsCredentialDefinitionId", "anonCredsSchemaId",
   "anonCredsSchemaName", "anonCredsSchemaIssuerId", "anonCredsSchemaVersion",
   "anonCredsMethodName", "anonCredsRevocationRegistryId",
   "anonCredsCredentialRevocationId"]

/-- Key list of the five mirror entries. -/
def w3cMirrorTagKeys : List String :=
  ["anonCredsUnqualifiedIssuerId", "anonCredsUnqualifiedCredentialDefinitionId",
   "anonCredsUnqualifiedSchemaId", "anonCredsUnqualifiedSchemaIssuerId",
   "anonCredsUnqualifiedRevocationRegistryId"]

/-- Concrete derivation options deciding C3: no revocation registry and no
credential revocation id. -/
def c3CexOptions : W3cTagsOptions :=
  { w3cCredentialRecord :=
      { credential :=
          { credentialSubject := .obj (some [("name", "Alice")]),
            issuerId := "did:web:example" },
        anoncredsMetadata := none,
        tags := [] },
    schemaId := "schema-3",
    schemaName := "degree",
    schemaVersion := "1.0",
    schemaIssuerId := "issuer-3",
    credentialDefinitionId := "creddef-3",
    revocationRegistryId := none,
    credentialRevocationId := none,
    linkSecretId := "link-secret-3",
    methodName := "anoncreds" }

/-- Concrete derivation options for the C3 witness: indy issuer and a
revocation registry present. -/
def c3WitnessOptions : W3cTagsOptions :=
  { w3cCredentialRecord :=
      { credential :=
          { credentialSubject := .obj (some [("name", "Alice")]),
            issuerId := "did:indy:sovrin:issuer-3w" },
        anoncredsMetadata := none,
        tags := [] },
    schemaId := "did:indy:sovrin:schema-3w",
    schemaName := "degree",
    schemaVersion := "1.0",
    schemaIssuerId := "did:indy:sovrin:issuer-3w",
    credentialDefinitionId := "did:indy:sovrin:cd-3w",
    revocationRegistryId := some "did:indy:sovrin:rev-3w",
    credentialRevocationId := some "7",
    linkSecretId := "link-secret-3w",
    methodName := "anoncreds" }

/-- Underlying data from which both record variants are constructed for
the projection-equivalence claim: same ids, same claims, same revocation
state, same method and link-secret id. -/
structure UnderlyingData where
  claims : JSObj String
  credentialDefinitionId : String
  schemaId : String
  schemaName : String
  schemaVersion : String
  schemaIssuerId : String
  revocationRegistryId : Option String
  credentialRevocationId : Option String
  methodName : String
  linkSecretId : String
deriving DecidableEq, Repr

/-- Native record carrying the underlying data: the enumerable keys of the
credential object are the claim names, and the value table holds the raw
claim values produced by the shared raw-value encoder. -/
def nativeRecordOfData (d : UnderlyingData) (credentialId : String) :
    AnonCredsCredentialRecord :=
  { credential :=
      { enumKeys := d.claims.map Prod.fst,
        schema_id := d.schemaId,
        cred_def_id := d.credentialDefinitionId,
        rev_reg_id := d.revocationRegistryId,
        values := mapAttributeRawValuesToAnonCredsCredentialValues d.claims },
    credentialId := credentialId,
    credentialRevocationId := d.credentialRevocationId,
    methodName := d.methodName,
    linkSecretId := d.linkSecretId }

/-- Standards-based record carrying the same underlying data: the claims
live in the credential subject, the ids in the stored tag mapping, and
the method, link-secret, revocation and credential ids in the metadata
side-table entry, as the store path writes them. -/
def w3cRecordOfData (d : UnderlyingData) (credentialId : String) (issuerId : String) :
    W3cCredentialRecord :=
  { credential := { credentialSubject := .obj (some d.claims), issuerId := issuerId },
    anoncredsMetadata :=
      some ⟨credentialId, d.credentialRevocationId, d.linkSecretId, d.methodName⟩,
    tags :=
      [("anonCredsLinkSecretId", .str d.linkSecretId),
       ("anonCredsCredentialDefinitionId", .str d.credentialDefinitionId),
       ("anonCredsSchemaId", .str d.schemaId),
       ("anonCredsSchemaName", .str d.schemaName),
       ("anonCredsSchemaIssuerId", .str d.schemaIssuerId),
       ("anonCredsSchemaVersion", .str d.schemaVersion),
       ("anonCredsMethodName", .str d.methodName),
       ("anonCredsRevocationRegistryId", optTV d.revocationRegistryId),
       ("anonCredsCredentialRevocationId", optTV d.credentialRevocationId)] }

/-- Concrete underlying data for the C2 witness. -/
def c2WitnessData : UnderlyingData :=
  { claims := [("name", "Alice"), ("age", "23")],
    credentialDefinitionId := "did:indy:sovrin:cd-2",
    schemaId := "did:indy:sovrin:schema-2",
    schemaName := "degree",
    schemaVersion := "1.0",
    schemaIssuerId := "did:indy:sovrin:issuer-2",
    revocationRegistryId := some "did:indy:sovrin:rev-2",
    credentialRevocationId := some "5",
    methodName := "anoncreds",
    linkSecretId := "link-secret-2" }

theorem stringDataAppend (a b : String) : (a ++ b).data = a.data ++ b.data := by
  cases a; cases b; rfl

theorem stringExt {a b : String} (h : a.data = b.data) : a = b := by
  cases a; cases b; exact congrArg String.mk h

theorem jsLookup_append {α : Type} (l1 l2 : JSObj α) (k : String) :
    jsLookup (l1 ++ l2) k =
      match jsLookup l1 k with
      | some v => some v
      | none => jsLookup l2 k := by
  induction l1 with
  | nil => simp [jsLookup]
  | cons p rest ih =>
    obtain ⟨k2, v⟩ := p
    by_cases h : k2 = k
    · simp [jsLookup, h]
    · simp [jsLookup, h, ih]

theorem jsHasKey_append {α : Type} (l1 l2 : JSObj α) (k : String) :
    jsHasKey (l1 ++ l2) k = (jsHasKey l1 k || jsHasKey l2 k) := by
  simp only [jsHasKey, jsLookup_append]
  cases jsLookup l1 k <;> simp

theorem jsSet_fresh {α : Type} (l : JSObj α) (k : String) (v : α)
    (h : jsLookup l k = none) : jsSet l k v = l ++ [(k, v)] := by
  induction l with
  | nil => rfl
  | cons p rest ih =>
    obtain ⟨k2, v2⟩ := p
    by_cases hk : k2 = k
    · simp [jsLookup, hk] at h
    · rw [jsLookup, if_neg hk] at h
      simp [jsSet, hk, ih h]

theorem jsLookup_jsSet_self {α : Type} (l : JSObj α) (k : String) (v : α) :
    jsLookup (jsSet l k v) k = some v := by
  induction l with
  | nil => simp [jsSet, jsLookup]
  | cons p rest ih =>
    obtain ⟨k2, v2⟩ := p
    by_cases hk : k2 = k
    · simp [jsSet, jsLookup, hk]
    · simp [jsSet, jsLookup, hk, ih]

theorem jsLookup_jsSet_ne {α : Type} (l : JSObj α) (k k2 : String) (v : α)
    (h : k2 ≠ k) : jsLookup (jsSet l k v) k2 = jsLookup l k2 := by
  induction l with
  | nil =>
    simp only [jsSet, jsLookup]
    rw [if_neg (fun hh => h hh.symm)]
  | cons p rest ih =>
    obtain ⟨k3, v3⟩ := p
    by_cases hk : k3 = k
    · subst hk
      rw [jsSet, if_pos rfl, jsLookup, jsLookup, if_neg (fun hh => h hh.symm),
        if_neg (fun hh => h hh.symm)]
    · rw [jsSet, if_neg hk, jsLookup, jsLookup]
      by_cases hk2 : k3 = k2
      · rw [if_pos hk2, if_pos hk2]
      · rw [if_neg hk2, if_neg hk2, ih]

theorem attrValueKey_ne (n k : String)
    (hk : k.data.take 15 ≠ ("anonCredsAttr::" : String).data) :
    attrValueKey n ≠ k := by
  intro he
  apply hk
  rw [← he, attrValueKey, stringDataAppend]
  have h15 : (15 : Nat) = ("anonCredsAttr::" : String).data.length := by decide
  rw [h15]
  exact List.take_left _ _

theorem attrMarkerKey_ne (n k : String)
    (hk : k.data.take 15 ≠ ("anonCredsAttr::" : String).data) :
    attrMarkerKey n ≠ k := by
  intro he
  apply hk
  rw [← he, attrMarkerKey, stringDataAppend]
  have h15 : (15 : Nat) = ("anonCredsAttr::" : String).data.length := by decide
  rw [h15]
  exact List.take_left _ _

theorem attrValueKey_inj {m n : String} (h : attrValueKey m = attrValueKey n) :
    m = n := by
  have hd := congrArg String.data h
  rw [attrValueKey, attrValueKey, stringDataAppend, stringDataAppend,
    stringDataAppend, stringDataAppend] at hd
  exact stringExt (List.append_cancel_right (List.append_cancel_left hd))

theorem attrMarkerKey_inj {m n : String} (h : attrMarkerKey m = attrMarkerKey n) :
    m = n := by
  have hd := congrArg String.data h
  rw [attrMarkerKey, attrMarkerKey, stringDataAppend, stringDataAppend,
    stringDataAppend, stringDataAppend] at hd
  exact stringExt (List.append_cancel_right (List.append_cancel_left hd))

theorem attrValueKey_ne_attrMarkerKey (m n : String) :
    attrValueKey m ≠ attrMarkerKey n := by
  intro h
  have hd := congrArg String.data h
  rw [attrValueKey, attrMarkerKey, stringDataAppend, stringDataAppend,
    stringDataAppend, stringDataAppend] at hd
  have h2 := List.append_cancel_left hd
  have h3 := congrArg List.getLast? h2
  rw [List.getLast?_append_of_ne_nil _ (by decide),
    List.getLast?_append_of_ne_nil _ (by decide)] at h3
  exact absurd h3 (by decide)

theorem jsLookup_eq_none_iff {α : Type} (l : JSObj α) (k : String) :
    jsLookup l k = none ↔ k ∉ l.map Prod.fst := by
  induction l with
  | nil => simp [jsLookup]
  | cons p rest ih =>
    obtain ⟨k2, v⟩ := p
    by_cases h : k2 = k
    · simp [jsLookup, h]
    · simp [jsLookup, h, ih, show ¬(k = k2) from fun hh => h hh.symm]

theorem attributesLoop_fault (values : JSObj ValueEntry) :
    ∀ (keys : List String) (acc : JSObj String),
      (∃ k ∈ keys, jsLookup values k = none) →
      attributesLoop values keys acc = .thrown .typeFault := by
  intro keys
  induction keys with
  | nil =>
    intro acc h
    simp at h
  | cons k ks ih =>
    intro acc h
    cases hv : jsLookup values k with
    | none => simp [attributesLoop, hv]
    | some e =>
      obtain ⟨k2, hk2, hnone⟩ := h
      rcases List.mem_cons.mp hk2 with rfl | hmem
      · rw [hv] at hnone
        exact absurd hnone (by simp)
      · simp only [attributesLoop, hv]
        exact ih _ ⟨k2, hmem, hnone⟩

theorem attributesLoop_ok (values : JSObj ValueEntry) :
    ∀ (keys : List String) (acc : JSObj String),
      (∀ k ∈ keys, (jsLookup values k).isSome) →
      ∃ attrs, attributesLoop values keys acc = .ok attrs := by
  intro keys
  induction keys with
  | nil => exact fun acc _ => ⟨acc, rfl⟩
  | cons k ks ih =>
    intro acc h
    cases hv : jsLookup values k with
    | none => exact absurd (h k (by simp)) (by simp [hv])
    | some e =>
      obtain ⟨attrs, ha⟩ :=
        ih (jsSet acc k e.raw) (fun k2 hk2 => h k2 (List.mem_cons_of_mem _ hk2))
      exact ⟨attrs, by simp [attributesLoop, hv, ha]⟩

theorem attributesLoop_exact (values : JSObj ValueEntry) :
    ∀ (keys : List String) (acc : JSObj String),
      (∀ k ∈ keys, (jsLookup values k).isSome) →
      (∀ k ∈ keys, jsLookup acc k = none) →
      keys.Nodup →
      attributesLoop values keys acc =
        .ok (acc ++ keys.map (fun k => (k, ((jsLookup values k).getD ⟨""⟩).raw))) := by
  intro keys
  induction keys with
  | nil =>
    intro acc _ _ _
    simp [attributesLoop]
  | cons k ks ih =>
    intro acc hsome hfresh hnd
    cases hv : jsLookup values k with
    | none => exact absurd (hsome k (by simp)) (by simp [hv])
    | some e =>
      have hset : jsSet acc k e.raw = acc ++ [(k, e.raw)] :=
        jsSet_fresh _ _ _ (hfresh k (by simp))
      have hnotmem : k ∉ ks := (List.nodup_cons.mp hnd).1
      have hfresh2 : ∀ k2 ∈ ks, jsLookup (acc ++ [(k, e.raw)]) k2 = none := by
        intro k2 hk2
        rw [jsLookup_append, hfresh k2 (List.mem_cons_of_mem _ hk2)]
        have hne : k ≠ k2 := fun hh => hnotmem (hh ▸ hk2)
        simp [jsLookup, hne]
      simp only [attributesLoop, hv, hset]
      rw [ih (acc ++ [(k, e.raw)]) (fun k2 hk2 => hsome k2 (List.mem_cons_of_mem _ hk2))
        hfresh2 (List.nodup_cons.mp hnd).2]
      simp [hv]

theorem lookup_mapValues (claims : JSObj String) (k : String) :
    jsLookup (mapAttributeRawValuesToAnonCredsCredentialValues claims) k =
      (jsLookup claims k).map (fun v => (⟨v⟩ : ValueEntry)) := by
  induction claims with
  | nil => rfl
  | cons p rest ih =>
    obtain ⟨k2, v⟩ := p
    by_cases h : k2 = k
    · simp [mapAttributeRawValuesToAnonCredsCredentialValues, jsLookup, h]
    · simp only [mapAttributeRawValuesToAnonCredsCredentialValues, List.map_cons, jsLookup,
        if_neg h] at ih ⊢
      exact ih

theorem claims_selfLookup (claims : JSObj String)
    (hnd : (claims.map Prod.fst).Nodup) :
    (claims.map Prod.fst).map
      (fun k =>
        (k, ((jsLookup (mapAttributeRawValuesToAnonCredsCredentialValues claims) k).getD
          ⟨""⟩).raw)) = claims := by
  induction claims with
  | nil => rfl
  | cons p rest ih =>
    obtain ⟨k0, v0⟩ := p
    simp only [List.map_cons] at hnd
    have hnotmem : k0 ∉ rest.map Prod.fst := (List.nodup_cons.mp hnd).1
    have htail : ∀ k ∈ rest.map Prod.fst,
        jsLookup (mapAttributeRawValuesToAnonCredsCredentialValues ((k0, v0) :: rest)) k =
          jsLookup (mapAttributeRawValuesToAnonCredsCredentialValues rest) k := by
      intro k hk
      have hne : k0 ≠ k := fun hh => hnotmem (hh ▸ hk)
      simp [mapAttributeRawValuesToAnonCredsCredentialValues, jsLookup, hne]
    have h1 : ∀ k ∈ rest.map Prod.fst,
        (k, ((jsLookup (mapAttributeRawValuesToAnonCredsCredentialValues ((k0, v0) :: rest))
          k).getD ⟨""⟩).raw)
          = (k, ((jsLookup (mapAttributeRawValuesToAnonCredsCredentialValues rest) k).getD
            ⟨""⟩).raw) := by
      intro k hk
      rw [htail k hk]
    simp only [List.map_cons]
    rw [List.map_congr_left h1, ih (List.nodup_cons.mp hnd).2]
    simp [mapAttributeRawValuesToAnonCredsCredentialValues, jsLookup]

theorem native_attributes (claims : JSObj String)
    (hnd : (claims.map Prod.fst).Nodup) :
    attributesLoop (mapAttributeRawValuesToAnonCredsCredentialValues claims)
      (claims.map Prod.fst) [] = .ok claims := by
  have hsome : ∀ k ∈ claims.map Prod.fst,
      (jsLookup (mapAttributeRawValuesToAnonCredsCredentialValues claims) k).isSome := by
    intro k hk
    rw [lookup_mapValues]
    cases hl : jsLookup claims k with
    | none => exact absurd hk ((jsLookup_eq_none_iff claims k).mp hl)
    | some v => simp
  have hfresh : ∀ k ∈ claims.map Prod.fst, jsLookup ([] : JSObj String) k = none :=
    fun k _ => rfl
  rw [attributesLoop_exact _ _ _ hsome hfresh hnd, List.nil_append,
    claims_selfLookup claims hnd]

theorem setAttrTags_cons (start : JSObj TagValue) (p : String × ValueEntry)
    (rest : JSObj ValueEntry) :
    setAttrTags start (p :: rest) =
      setAttrTags
        (jsSet (jsSet start (attrValueKey p.1) (.str p.2.raw)) (attrMarkerKey p.1)
          (.tbool true)) rest := rfl

theorem setAttrTags_lookup_preserve (values : JSObj ValueEntry) :
    ∀ (start : JSObj TagValue) (k : String),
      k.data.take 15 ≠ ("anonCredsAttr::" : String).data →
      jsLookup (setAttrTags start values) k = jsLookup start k := by
  induction values with
  | nil =>
    intro start k _
    rfl
  | cons p rest ih =>
    intro start k hk
    rw [setAttrTags_cons, ih _ k hk,
      jsLookup_jsSet_ne _ _ _ _ (Ne.symm (attrMarkerKey_ne p.1 k hk)),
      jsLookup_jsSet_ne _ _ _ _ (Ne.symm (attrValueKey_ne p.1 k hk))]

theorem setAttrTags_append (values : JSObj ValueEntry) :
    ∀ (start : JSObj TagValue),
      (∀ p ∈ values, jsLookup start (attrValueKey p.1) = none ∧
        jsLookup start (attrMarkerKey p.1) = none) →
      (values.map Prod.fst).Nodup →
      setAttrTags start values =
        start ++ values.flatMap
          (fun p => [(attrValueKey p.1, TagValue.str p.2.raw),
            (attrMarkerKey p.1, TagValue.tbool true)]) := by
  induction values with
  | nil =>
    intro start _ _
    simp [setAttrTags]
  | cons p rest ih =>
    intro start hfresh hnd
    simp only [List.map_cons] at hnd
    have hp1 : p.1 ∉ rest.map Prod.fst := (List.nodup_cons.mp hnd).1
    have hnd2 : (rest.map Prod.fst).Nodup := (List.nodup_cons.mp hnd).2
    have hv := (hfresh p (List.mem_cons_self _ _)).1
    have hm := (hfresh p (List.mem_cons_self _ _)).2
    have hset1 : jsSet start (attrValueKey p.1) (TagValue.str p.2.raw) =
        start ++ [(attrValueKey p.1, TagValue.str p.2.raw)] := jsSet_fresh _ _ _ hv
    have hm2 : jsLookup (start ++ [(attrValueKey p.1, TagValue.str p.2.raw)])
        (attrMarkerKey p.1) = none := by
      rw [jsLookup_append, hm]
      simp [jsLookup, attrValueKey_ne_attrMarkerKey p.1 p.1]
    have hset2 : jsSet (start ++ [(attrValueKey p.1, TagValue.str p.2.raw)])
        (attrMarkerKey p.1) (TagValue.tbool true) =
        start ++ [(attrValueKey p.1, TagValue.str p.2.raw),
          (attrMarkerKey p.1, TagValue.tbool true)] := by
      rw [jsSet_fresh _ _ _ hm2, List.append_assoc]
      rfl
    have hfresh2 : ∀ q ∈ rest,
        jsLookup (start ++ [(attrValueKey p.1, TagValue.str p.2.raw),
          (attrMarkerKey p.1, TagValue.tbool true)]) (attrValueKey q.1) = none ∧
        jsLookup (start ++ [(attrValueKey p.1, TagValue.str p.2.raw),
          (attrMarkerKey p.1, TagValue.tbool true)]) (attrMarkerKey q.1) = none := by
      intro q hq
      have hq1 : q.1 ∈ rest.map Prod.fst := List.mem_map_of_mem _ hq
      have hne : p.1 ≠ q.1 := fun hh => hp1 (hh ▸ hq1)
      have c1 : attrValueKey p.1 ≠ attrValueKey q.1 := fun hh => hne (attrValueKey_inj hh)
      have c2 : attrMarkerKey p.1 ≠ attrValueKey q.1 :=
        Ne.symm (attrValueKey_ne_attrMarkerKey q.1 p.1)
      have c3 : attrValueKey p.1 ≠ attrMarkerKey q.1 := attrValueKey_ne_attrMarkerKey p.1 q.1
      have c4 : attrMarkerKey p.1 ≠ attrMarkerKey q.1 := fun hh => hne (attrMarkerKey_inj hh)
      constructor
      · rw [jsLookup_append, (hfresh q (List.mem_cons_of_mem _ hq)).1]
        simp [jsLookup, c1, c2]
      · rw [jsLookup_append, (hfresh q (List.mem_cons_of_mem _ hq)).2]
        simp [jsLookup, c3, c4]
    rw [setAttrTags_cons, hset1, hset2,
      ih _ hfresh2 hnd2]
    simp [List.append_assoc]

/-- C1: for every native (variant A) stored record whose enumerable
credential keys each have an entry in the value table (and are distinct,
as the keys of a JavaScript object are), projectInfo returns a
CredentialInfo whose attributes mapping is exactly one entry per
enumerable key, mapping that key to the raw value read from the value
table under it, and nothing else. -/
theorem c1_native_attributes_exact (r : AnonCredsCredentialRecord)
    (hcover : ∀ k ∈ r.credential.enumKeys, (jsLookup r.credential.values k).isSome)
    (hnd : r.credential.enumKeys.Nodup) :
    getAnoncredsCredentialInfoFromRecord (.native r) =
      .ok {
        attributes := r.credential.enumKeys.map
          (fun k => (k, ((jsLookup r.credential.values k).getD ⟨""⟩).raw)),
        credentialId := r.credentialId,
        credentialDefinitionId := .str r.credential.cred_def_id,
        schemaId := .str r.credential.schema_id,
        credentialRevocationId := r.credentialRevocationId,
        revocationRegistryId := r.credential.rev_reg_id.map .str,
        methodName := r.methodName,
        linkSecretId := r.linkSecretId } := by
  have hfresh : ∀ k ∈ r.credential.enumKeys, jsLookup ([] : JSObj String) k = none :=
    fun k _ => rfl
  simp [getAnoncredsCredentialInfoFromRecord, anoncredsCredentialInfoFromAnoncredsRecord,
    attributesLoop_exact _ _ _ hcover hfresh hnd]

/-- Witness for C1: the theorem applied to a concrete record. -/
theorem c1_native_attributes_exact_witness :
    getAnoncredsCredentialInfoFromRecord (.native c1WitnessRecord) =
      .ok {
        attributes := [("name", "Alice"), ("age", "23")],
        credentialId := "credential-1",
        credentialDefinitionId := .str "creddef-1",
        schemaId := .str "schema-1",
        credentialRevocationId := none,
        revocationRegistryId := none,
        methodName := "anoncreds",
        linkSecretId := "link-secret-1" } :=
  c1_native_attributes_exact c1WitnessRecord (by decide) (by decide)

/-- C9: variant-A projection is total exactly under the precondition that
every enumerable key of the credential object has an entry in the value
table; when the precondition holds, projection returns a value, and when
it fails, projection faults with the runtime type fault instead of
returning or throwing a typed CredoError. -/
theorem c9_native_totality (r : AnonCredsCredentialRecord) :
    ((∀ k ∈ r.credential.enumKeys, (jsLookup r.credential.values k).isSome) →
      ∃ info, getAnoncredsCredentialInfoFromRecord (.native r) = .ok info) ∧
    ((¬ ∀ k ∈ r.credential.enumKeys, (jsLookup r.credential.values k).isSome) →
      getAnoncredsCredentialInfoFromRecord (.native r) = .thrown .typeFault) := by
  constructor
  · intro hcov
    obtain ⟨attrs, ha⟩ := attributesLoop_ok _ _ [] hcov
    exact ⟨⟨attrs, r.credentialId, .str r.credential.cred_def_id,
        .str r.credential.schema_id, r.credentialRevocationId,
        r.credential.rev_reg_id.map .str, r.methodName, r.linkSecretId⟩,
      by simp [getAnoncredsCredentialInfoFromRecord,
        anoncredsCredentialInfoFromAnoncredsRecord, ha]⟩
  · intro hcov
    push_neg at hcov
    obtain ⟨k, hk, hnone⟩ := hcov
    have hn : jsLookup r.credential.values k = none := by
      cases h : jsLookup r.credential.values k with
      | none => rfl
      | some v =>
        rw [h] at hnone
        simp at hnone
    simp [getAnoncredsCredentialInfoFromRecord, anoncredsCredentialInfoFromAnoncredsRecord,
      attributesLoop_fault _ _ _ ⟨k, hk, hn⟩]

/-- Witness for C9: the fault branch of the theorem applied to a concrete
record whose value table misses the enumerated key. -/
theorem c9_native_totality_witness :
    getAnoncredsCredentialInfoFromRecord (.native c9WitnessRecord) = .thrown .typeFault :=
  (c9_native_totality c9WitnessRecord).2 (by decide)

/-- C6: when the credential subject is a sequence (array) rather than a
single object, both the tag deriver and variant-B projectInfo throw the
malformed-credential-subject error instead of projecting an element. -/
theorem c6_array_subject_fails (o : W3cTagsOptions) (r : W3cCredentialRecord)
    (ho : ∃ xs, o.w3cCredentialRecord.credential.credentialSubject = .arr xs)
    (hr : ∃ ys, r.credential.credentialSubject = .arr ys) :
    getW3cRecordAnonCredsTags o =
      .thrown (.credo "Credential subject must be an object, not an array.") ∧
    getAnoncredsCredentialInfoFromRecord (.w3c r) =
      .thrown (.credo "Credential subject must be an object, not an array.") := by
  obtain ⟨xs, hx⟩ := ho
  obtain ⟨ys, hy⟩ := hr
  constructor
  · simp [getW3cRecordAnonCredsTags, hx]
  · simp [getAnoncredsCredentialInfoFromRecord, anoncredsCredentialInfoFromW3cRecord, hy]

/-- Witness for C6: the theorem applied to concrete inputs whose subject is
an array of two objects. -/
theorem c6_array_subject_fails_witness :
    getW3cRecordAnonCredsTags c6WitnessOptions =
      .thrown (.credo "Credential subject must be an object, not an array.") ∧
    getAnoncredsCredentialInfoFromRecord (.w3c c6WitnessRecord) =
      .thrown (.credo "Credential subject must be an object, not an array.") :=
  c6_array_subject_fails c6WitnessOptions c6WitnessRecord
    ⟨[some [("a", "1")], some [("b", "2")]], by rfl⟩
    ⟨[some [("a", "1")], some [("b", "2")]], by rfl⟩

/-- C5 counterexample: on a record whose metadata entry is absent (and
whose tags are complete and truthy), projectInfo throws the tags-not-found
CredoError, not the metadata-not-found one the claim requires. -/
theorem c5_counterexample :
    getAnoncredsCredentialInfoFromRecord (.w3c c5CexRecord) =
      .thrown (.credo "AnonCreds tags not found on credential record.") ∧
    getAnoncredsCredentialInfoFromRecord (.w3c c5CexRecord) ≠
      .thrown (.credo "AnonCreds metadata not found on credential record.") := by
  constructor
  · rfl
  · decide

/-- C5 amended: for every variant-B record whose subject is not an array
and whose metadata entry is absent, projectInfo fails with the
tags-not-found error, because the tag-extraction helper reports metadata
absence as absent tags and the projector checks tags before metadata. -/
theorem c5_missing_metadata_reports_missing_tags (r : W3cCredentialRecord)
    (hmd : r.anoncredsMetadata = none)
    (hsub : ∃ c, r.credential.credentialSubject = .obj c) :
    getAnoncredsCredentialInfoFromRecord (.w3c r) =
      .thrown (.credo "AnonCreds tags not found on credential record.") := by
  obtain ⟨c, hc⟩ := hsub
  simp [getAnoncredsCredentialInfoFromRecord, anoncredsCredentialInfoFromW3cRecord, hc,
    getAnonCredsTagsFromRecord, hmd]

/-- Witness for the amended C5 at the concrete record. -/
theorem c5_missing_metadata_reports_missing_tags_witness :
    getAnoncredsCredentialInfoFromRecord (.w3c c5CexRecord) =
      .thrown (.credo "AnonCreds tags not found on credential record.") :=
  c5_missing_metadata_reports_missing_tags c5CexRecord (by rfl)
    ⟨some [("name", "Alice")], by rfl⟩

theorem unqualified_false_of_indy {s : String} (h : isIndyDid s = true) :
    isUnqualifiedIndyDid s = false := by
  unfold isIndyDid strBeginsWith at h
  unfold isUnqualifiedIndyDid strBeginsWith
  have h1 : ("did:indy:" : String).data <+: s.data := List.isPrefixOf_iff_prefix.mp h
  have h2 : ("did:" : String).data <+: ("did:indy:" : String).data := by decide
  simp [List.isPrefixOf_iff_prefix.mpr (h2.trans h1)]

theorem storeOptionsFieldsFixed (options : StoreCredentialOptions) (ns gid : String)
    (h1 : isIndyDid options.credentialDefinitionId = true)
    (h2 : isIndyDid options.schema.issuerId = true)
    (h3 : isIndyDid options.credentialDefinition.issuerId = true)
    (h4 : ∀ rr, options.revocationRegistry = some rr →
      isIndyDid rr.id = true ∧ isIndyDid rr.definition.issuerId = true) :
    (getStoreCredentialOptions options ns gid).credentialDefinitionId =
        options.credentialDefinitionId ∧
      (getStoreCredentialOptions options ns gid).schema = options.schema ∧
      (getStoreCredentialOptions options ns gid).credentialDefinition =
        options.credentialDefinition ∧
      (getStoreCredentialOptions options ns gid).revocationRegistry =
        options.revocationRegistry := by
  have hc : isUnqualifiedCredentialDefinitionId options.credentialDefinitionId = false := by
    simpa [isUnqualifiedCredentialDefinitionId] using unqualified_false_of_indy h1
  have hs : isUnqualifiedDidIndySchema options.schema = false := by
    simpa [isUnqualifiedDidIndySchema] using unqualified_false_of_indy h2
  have hcd : isUnqualifiedDidIndyCredentialDefinition options.credentialDefinition = false := by
    simpa [isUnqualifiedDidIndyCredentialDefinition] using unqualified_false_of_indy h3
  refine ⟨?_, ?_, ?_, ?_⟩
  · simp [getStoreCredentialOptions, hc]
  · simp [getStoreCredentialOptions, hs]
  · simp [getStoreCredentialOptions, hcd]
  · cases hr : options.revocationRegistry with
    | none => simp [getStoreCredentialOptions, hr]
    | some rr =>
      obtain ⟨hrid, hrdef⟩ := h4 rr hr
      have hru : isUnqualifiedRevocationRegistryId rr.id = false := by
        simpa [isUnqualifiedRevocationRegistryId] using unqualified_false_of_indy hrid
      have hrd : isUnqualifiedDidIndyRevocationRegistryDefinition rr.definition = false := by
        simpa [isUnqualifiedDidIndyRevocationRegistryDefinition] using
          unqualified_false_of_indy hrdef
      simp [getStoreCredentialOptions, hr, hru, hrd]

/-- C8: qualification at store time is idempotent.  When every identifier
field of the store-credential options is already qualified, normalization
returns those fields unchanged, and applying the normalization again to
its own output changes no identifier field either. -/
theorem c8_store_qualification_idempotent (options : StoreCredentialOptions)
    (ns gid ns2 gid2 : String)
    (h1 : isIndyDid options.credentialDefinitionId = true)
    (h2 : isIndyDid options.schema.issuerId = true)
    (h3 : isIndyDid options.credentialDefinition.issuerId = true)
    (h4 : ∀ rr, options.revocationRegistry = some rr →
      isIndyDid rr.id = true ∧ isIndyDid rr.definition.issuerId = true) :
    ((getStoreCredentialOptions options ns gid).credentialDefinitionId =
        options.credentialDefinitionId ∧
      (getStoreCredentialOptions options ns gid).schema = options.schema ∧
      (getStoreCredentialOptions options ns gid).credentialDefinition =
        options.credentialDefinition ∧
      (getStoreCredentialOptions options ns gid).revocationRegistry =
        options.revocationRegistry) ∧
    ((getStoreCredentialOptions (getStoreCredentialOptions options ns gid) ns2
        gid2).credentialDefinitionId =
        (getStoreCredentialOptions options ns gid).credentialDefinitionId ∧
      (getStoreCredentialOptions (getStoreCredentialOptions options ns gid) ns2 gid2).schema =
        (getStoreCredentialOptions options ns gid).schema ∧
      (getStoreCredentialOptions (getStoreCredentialOptions options ns gid) ns2
        gid2).credentialDefinition =
        (getStoreCredentialOptions options ns gid).credentialDefinition ∧
      (getStoreCredentialOptions (getStoreCredentialOptions options ns gid) ns2
        gid2).revocationRegistry =
        (getStoreCredentialOptions options ns gid).revocationRegistry) := by
  have hmain := storeOptionsFieldsFixed options ns gid h1 h2 h3 h4
  obtain ⟨e1, e2, e3, e4⟩ := hmain
  have hagain := storeOptionsFieldsFixed (getStoreCredentialOptions options ns gid) ns2 gid2
    (by rw [e1]; exact h1) (by rw [e2]; exact h2) (by rw [e3]; exact h3)
    (by rw [e4]; exact h4)
  exact ⟨⟨e1, e2, e3, e4⟩, hagain⟩

/-- Witness for C8 at a concrete fully-qualified options value. -/
theorem c8_store_qualification_idempotent_witness :
    ((getStoreCredentialOptions c8WitnessOptions "sovrin" "uuid-1").credentialDefinitionId =
        c8WitnessOptions.credentialDefinitionId ∧
      (getStoreCredentialOptions c8WitnessOptions "sovrin" "uuid-1").schema =
        c8WitnessOptions.schema ∧
      (getStoreCredentialOptions c8WitnessOptions "sovrin" "uuid-1").credentialDefinition =
        c8WitnessOptions.credentialDefinition ∧
      (getStoreCredentialOptions c8WitnessOptions "sovrin" "uuid-1").revocationRegistry =
        c8WitnessOptions.revocationRegistry) ∧
    ((getStoreCredentialOptions (getStoreCredentialOptions c8WitnessOptions "sovrin" "uuid-1")
        "sovrin" "uuid-2").credentialDefinitionId =
        (getStoreCredentialOptions c8WitnessOptions "sovrin" "uuid-1").credentialDefinitionId ∧
      (getStoreCredentialOptions (getStoreCredentialOptions c8WitnessOptions "sovrin" "uuid-1")
        "sovrin" "uuid-2").schema =
        (getStoreCredentialOptions c8WitnessOptions "sovrin" "uuid-1").schema ∧
      (getStoreCredentialOptions (getStoreCredentialOptions c8WitnessOptions "sovrin" "uuid-1")
        "sovrin" "uuid-2").credentialDefinition =
        (getStoreCredentialOptions c8WitnessOptions "sovrin" "uuid-1").credentialDefinition ∧
      (getStoreCredentialOptions (getStoreCredentialOptions c8WitnessOptions "sovrin" "uuid-1")
        "sovrin" "uuid-2").revocationRegistry =
        (getStoreCredentialOptions c8WitnessOptions "sovrin" "uuid-1").revocationRegistry) :=
  c8_store_qualification_idempotent c8WitnessOptions "sovrin" "uuid-1" "sovrin" "uuid-2"
    (by decide) (by decide) (by decide)
    (by
      intro rr h
      injection h with h2
      subst h2
      exact ⟨by decide, by decide⟩)

theorem getTags_none_of_falsy (record : W3cCredentialRecord)
    (md : W3cAnoncredsCredentialMetadata) (hmd : record.anoncredsMetadata = some md)
    (k : String) (hk : k ∈ requiredTagKeys)
    (hfalse : (jsGet record.tags k).truthy = false) :
    getAnonCredsTagsFromRecord record = none := by
  unfold getAnonCredsTagsFromRecord
  rw [hmd]
  simp only [requiredTagKeys, List.mem_cons, List.not_mem_nil, or_false] at hk
  rcases hk with rfl | rfl | rfl | rfl | rfl | rfl | rfl <;> simp [hfalse]

theorem getTags_some_of_truthy (record : W3cCredentialRecord)
    (md : W3cAnoncredsCredentialMetadata) (hmd : record.anoncredsMetadata = some md)
    (hall : ∀ k ∈ requiredTagKeys, (jsGet record.tags k).truthy = true) :
    getAnonCredsTagsFromRecord record =
      some (record.tags.filter (fun p => strBeginsWith "anonCreds" p.1)) := by
  unfold getAnonCredsTagsFromRecord
  rw [hmd]
  have h1 := hall "anonCredsLinkSecretId" (by simp [requiredTagKeys])
  have h2 := hall "anonCredsMethodName" (by simp [requiredTagKeys])
  have h3 := hall "anonCredsSchemaId" (by simp [requiredTagKeys])
  have h4 := hall "anonCredsSchemaName" (by simp [requiredTagKeys])
  have h5 := hall "anonCredsSchemaVersion" (by simp [requiredTagKeys])
  have h6 := hall "anonCredsSchemaIssuerId" (by simp [requiredTagKeys])
  have h7 := hall "anonCredsCredentialDefinitionId" (by simp [requiredTagKeys])
  simp [h1, h2, h3, h4, h5, h6, h7]

/-- C7 counterexample: a record with metadata present and every one of the
seven required tag keys present, on which the helper nevertheless returns
absent (a required tag holds the empty string), refuting the otherwise
branch of the claim. -/
theorem c7_counterexample :
    c7CexRecord.anoncredsMetadata.isSome = true ∧
    (∀ k ∈ requiredTagKeys, jsHasKey c7CexRecord.tags k = true) ∧
    getAnonCredsTagsFromRecord c7CexRecord = none := by
  refine ⟨rfl, ?_, rfl⟩
  decide

/-- C7 amended: the helper returns absent when the metadata entry is
absent; returns absent when any of the seven required tag keys is missing
or holds a falsy value (such as the empty string); and otherwise returns
a tag mapping in which every key starts with the anonCreds prefix. -/
theorem c7_tag_extraction (record : W3cCredentialRecord) :
    (record.anoncredsMetadata = none → getAnonCredsTagsFromRecord record = none) ∧
    ((∃ k ∈ requiredTagKeys, (jsGet record.tags k).truthy = false) →
      getAnonCredsTagsFromRecord record = none) ∧
    (record.anoncredsMetadata.isSome = true →
      (∀ k ∈ requiredTagKeys, (jsGet record.tags k).truthy = true) →
      ∃ l, getAnonCredsTagsFromRecord record = some l ∧
        ∀ p ∈ l, strBeginsWith "anonCreds" p.1 = true) := by
  refine ⟨?_, ?_, ?_⟩
  · intro h
    simp [getAnonCredsTagsFromRecord, h]
  · intro hex
    obtain ⟨k, hk, hfalse⟩ := hex
    cases hmd : record.anoncredsMetadata with
    | none => simp [getAnonCredsTagsFromRecord, hmd]
    | some md => exact getTags_none_of_falsy record md hmd k hk hfalse
  · intro hmd hall
    obtain ⟨md, hmd2⟩ := Option.isSome_iff_exists.mp hmd
    rw [getTags_some_of_truthy record md hmd2 hall]
    exact ⟨_, rfl, fun p hp => (List.mem_filter.mp hp).2⟩

/-- Witness for the amended C7: the otherwise branch applied to a concrete
record whose raw tag mapping also carries an unrelated tag. -/
theorem c7_tag_extraction_witness :
    ∃ l, getAnonCredsTagsFromRecord c7WitnessRecord = some l ∧
      ∀ p ∈ l, strBeginsWith "anonCreds" p.1 = true :=
  (c7_tag_extraction c7WitnessRecord).2.2 (by decide) (by decide)

/-- C10: a required tag holding the empty string is treated as missing:
with metadata present, all seven required keys present, and some required
key holding the empty string, the tag-extraction helper returns absent,
and variant-B projection on such a record (with a non-array subject)
throws the missing-tags error. -/
theorem c10_empty_required_tag_is_missing (record : W3cCredentialRecord)
    (hmd : record.anoncredsMetadata.isSome = true)
    (_hall : ∀ k ∈ requiredTagKeys, jsHasKey record.tags k = true)
    (hempty : ∃ k ∈ requiredTagKeys, jsGet record.tags k = .str "")
    (hsub : ∃ c, record.credential.credentialSubject = .obj c) :
    getAnonCredsTagsFromRecord record = none ∧
    getAnoncredsCredentialInfoFromRecord (.w3c record) =
      .thrown (.credo "AnonCreds tags not found on credential record.") := by
  obtain ⟨md, hmd2⟩ := Option.isSome_iff_exists.mp hmd
  obtain ⟨k, hk, hke⟩ := hempty
  have hfalse : (jsGet record.tags k).truthy = false := by
    rw [hke]
    rfl
  have hnone : getAnonCredsTagsFromRecord record = none :=
    getTags_none_of_falsy record md hmd2 k hk hfalse
  obtain ⟨c, hc⟩ := hsub
  refine ⟨hnone, ?_⟩
  simp [getAnoncredsCredentialInfoFromRecord, anoncredsCredentialInfoFromW3cRecord, hc, hnone]

/-- Witness for C10 at the concrete record. -/
theorem c10_empty_required_tag_is_missing_witness :
    getAnonCredsTagsFromRecord c10WitnessRecord = none ∧
    getAnoncredsCredentialInfoFromRecord (.w3c c10WitnessRecord) =
      .thrown (.credo "AnonCreds tags not found on credential record.") :=
  c10_empty_required_tag_is_missing c10WitnessRecord (by decide) (by decide) (by decide)
    ⟨some [("name", "Alice")], by rfl⟩

theorem getW3cTags_ok_inv (o : W3cTagsOptions) (t : JSObj TagValue)
    (h : getW3cRecordAnonCredsTags o = .ok t) :
    ∃ cl, o.w3cCredentialRecord.credential.credentialSubject = .obj cl ∧
      t = setAttrTags
        (if isIndyDid o.w3cCredentialRecord.credential.issuerId then
          w3cBaseTags o ++ w3cMirrorTags o
        else w3cBaseTags o)
        (mapAttributeRawValuesToAnonCredsCredentialValues (cl.getD [])) := by
  cases hs : o.w3cCredentialRecord.credential.credentialSubject with
  | arr xs =>
    simp [getW3cRecordAnonCredsTags, hs] at h
  | obj cl =>
    refine ⟨cl, rfl, ?_⟩
    simp [getW3cRecordAnonCredsTags, hs] at h
    exact h.symm

/-- C4: a mirror tag carries a defined value in the deriveTags output if
and only if the issuer id of the stored credential is an indy did; the
revocation-registry mirror is additionally defined only when the
revocation registry id is present in the sense of the source ternary, a
truthiness test under which the empty string counts as absent.  Absent
optional inputs leave mirror keys holding undefined, so presence is read
as present-with-defined-value. -/
theorem c4_mirror_conditionality (o : W3cTagsOptions) (t : JSObj TagValue)
    (h : getW3cRecordAnonCredsTags o = .ok t) :
    tagDefined t "anonCredsUnqualifiedIssuerId" =
        isIndyDid o.w3cCredentialRecord.credential.issuerId ∧
      tagDefined t "anonCredsUnqualifiedCredentialDefinitionId" =
        isIndyDid o.w3cCredentialRecord.credential.issuerId ∧
      tagDefined t "anonCredsUnqualifiedSchemaId" =
        isIndyDid o.w3cCredentialRecord.credential.issuerId ∧
      tagDefined t "anonCredsUnqualifiedSchemaIssuerId" =
        isIndyDid o.w3cCredentialRecord.credential.issuerId ∧
      tagDefined t "anonCredsUnqualifiedRevocationRegistryId" =
        (isIndyDid o.w3cCredentialRecord.credential.issuerId &&
          optStrTruthy o.revocationRegistryId) := by
  obtain ⟨cl, hs, ht⟩ := getW3cTags_ok_inv o t h
  subst ht
  refine ⟨?_, ?_, ?_, ?_, ?_⟩ <;> simp only [tagDefined, jsGet]
  · rw [setAttrTags_lookup_preserve _ _ _ (by decide)]
    cases hind : isIndyDid o.w3cCredentialRecord.credential.issuerId <;>
      simp [hind, w3cBaseTags, w3cMirrorTags, jsLookup]
  · rw [setAttrTags_lookup_preserve _ _ _ (by decide)]
    cases hind : isIndyDid o.w3cCredentialRecord.credential.issuerId <;>
      simp [hind, w3cBaseTags, w3cMirrorTags, jsLookup]
  · rw [setAttrTags_lookup_preserve _ _ _ (by decide)]
    cases hind : isIndyDid o.w3cCredentialRecord.credential.issuerId <;>
      simp [hind, w3cBaseTags, w3cMirrorTags, jsLookup]
  · rw [setAttrTags_lookup_preserve _ _ _ (by decide)]
    cases hind : isIndyDid o.w3cCredentialRecord.credential.issuerId <;>
      simp [hind, w3cBaseTags, w3cMirrorTags, jsLookup]
  · rw [setAttrTags_lookup_preserve _ _ _ (by decide)]
    cases hind : isIndyDid o.w3cCredentialRecord.credential.issuerId
    · simp [hind, w3cBaseTags, jsLookup]
    · cases hrev : o.revocationRegistryId with
      | none => simp [hind, hrev, w3cBaseTags, w3cMirrorTags, jsLookup, optStrTruthy]
      | some rid =>
        by_cases hrs : rid = ""
        · simp [hind, hrev, hrs, w3cBaseTags, w3cMirrorTags, jsLookup, optStrTruthy]
        · simp [hind, hrev, hrs, w3cBaseTags, w3cMirrorTags, jsLookup, optStrTruthy]
          exact (bne_iff_ne.mpr hrs).symm

/-- Witness for C4 at concrete options with an indy issuer. -/
theorem c4_mirror_conditionality_witness :
    tagDefined c4WitnessTags "anonCredsUnqualifiedIssuerId" =
        isIndyDid c4WitnessOptions.w3cCredentialRecord.credential.issuerId ∧
      tagDefined c4WitnessTags "anonCredsUnqualifiedCredentialDefinitionId" =
        isIndyDid c4WitnessOptions.w3cCredentialRecord.credential.issuerId ∧
      tagDefined c4WitnessTags "anonCredsUnqualifiedSchemaId" =
        isIndyDid c4WitnessOptions.w3cCredentialRecord.credential.issuerId ∧
      tagDefined c4WitnessTags "anonCredsUnqualifiedSchemaIssuerId" =
        isIndyDid c4WitnessOptions.w3cCredentialRecord.credential.issuerId ∧
      tagDefined c4WitnessTags "anonCredsUnqualifiedRevocationRegistryId" =
        (isIndyDid c4WitnessOptions.w3cCredentialRecord.credential.issuerId &&
          optStrTruthy c4WitnessOptions.revocationRegistryId) :=
  c4_mirror_conditionality c4WitnessOptions c4WitnessTags (by decide)

theorem attrKey_notin (n : String) (keys : List String)
    (hk : ∀ k ∈ keys, k.data.take 15 ≠ ("anonCredsAttr::" : String).data) :
    attrValueKey n ∉ keys ∧ attrMarkerKey n ∉ keys := by
  constructor <;> intro hmem
  · exact attrValueKey_ne n _ (hk _ hmem) rfl
  · exact attrMarkerKey_ne n _ (hk _ hmem) rfl

theorem w3cBaseTags_keys (o : W3cTagsOptions) :
    (w3cBaseTags o).map Prod.fst = w3cBaseTagKeys := by
  simp [w3cBaseTags, w3cBaseTagKeys]

theorem w3cMirrorTags_keys (o : W3cTagsOptions) :
    (w3cMirrorTags o).map Prod.fst = w3cMirrorTagKeys := by
  simp [w3cMirrorTags, w3cMirrorTagKeys]

theorem startTags_attr_fresh (o : W3cTagsOptions) (b : Bool) (n : String) :
    jsLookup (if b then w3cBaseTags o ++ w3cMirrorTags o else w3cBaseTags o)
      (attrValueKey n) = none ∧
    jsLookup (if b then w3cBaseTags o ++ w3cMirrorTags o else w3cBaseTags o)
      (attrMarkerKey n) = none := by
  cases b
  · have hr : (if (false : Bool) = true then w3cBaseTags o ++ w3cMirrorTags o
        else w3cBaseTags o) = w3cBaseTags o := by simp
    rw [hr]
    constructor <;> apply (jsLookup_eq_none_iff _ _).mpr <;> rw [w3cBaseTags_keys]
    · exact (attrKey_notin n w3cBaseTagKeys (by decide)).1
    · exact (attrKey_notin n w3cBaseTagKeys (by decide)).2
  · have hr : (if (true : Bool) = true then w3cBaseTags o ++ w3cMirrorTags o
        else w3cBaseTags o) = w3cBaseTags o ++ w3cMirrorTags o := by simp
    rw [hr]
    constructor <;> apply (jsLookup_eq_none_iff _ _).mpr <;>
      rw [List.map_append, w3cBaseTags_keys, w3cMirrorTags_keys]
    · exact (attrKey_notin n (w3cBaseTagKeys ++ w3cMirrorTagKeys) (by decide)).1
    · exact (attrKey_notin n (w3cBaseTagKeys ++ w3cMirrorTagKeys) (by decide)).2

theorem attrPairTags_eq (claims : JSObj String) :
    (mapAttributeRawValuesToAnonCredsCredentialValues claims).flatMap
      (fun p => [(attrValueKey p.1, TagValue.str p.2.raw),
        (attrMarkerKey p.1, TagValue.tbool true)]) = attrPairTags claims := by
  induction claims with
  | nil => rfl
  | cons p rest ih =>
    simp only [mapAttributeRawValuesToAnonCredsCredentialValues, List.map_cons,
      List.flatMap_cons, attrPairTags] at ih ⊢
    rw [ih]

theorem attrPairTags_hasKey (claims : JSObj String) (n : String) :
    (jsHasKey (attrPairTags claims) (attrValueKey n) = true ↔ n ∈ claims.map Prod.fst) ∧
    (jsHasKey (attrPairTags claims) (attrMarkerKey n) = true ↔ n ∈ claims.map Prod.fst) := by
  induction claims with
  | nil => simp [attrPairTags, jsHasKey, jsLookup]
  | cons p rest ih =>
    have hpair : attrPairTags (p :: rest) =
        (attrValueKey p.1, TagValue.str p.2) :: (attrMarkerKey p.1, TagValue.tbool true) ::
          attrPairTags rest := by
      simp [attrPairTags]
    by_cases hn : p.1 = n
    · subst hn
      constructor
      · simp [hpair, jsHasKey, jsLookup]
      · simp [hpair, jsHasKey, jsLookup, attrValueKey_ne_attrMarkerKey p.1 p.1]
    · have c1 : attrValueKey p.1 ≠ attrValueKey n := fun hh => hn (attrValueKey_inj hh)
      have c2 : attrMarkerKey p.1 ≠ attrValueKey n :=
        Ne.symm (attrValueKey_ne_attrMarkerKey n p.1)
      have c3 : attrValueKey p.1 ≠ attrMarkerKey n := attrValueKey_ne_attrMarkerKey p.1 n
      have c4 : attrMarkerKey p.1 ≠ attrMarkerKey n := fun hh => hn (attrMarkerKey_inj hh)
      have hn2 : ¬(n = p.1) := fun hh => hn hh.symm
      constructor
      · rw [hpair]
        simp only [jsHasKey, jsLookup, if_neg c1, if_neg c2, List.map_cons]
        constructor
        · intro h
          exact List.mem_cons_of_mem _ (ih.1.mp h)
        · intro h
          rcases List.mem_cons.mp h with h1 | h1
          · exact absurd h1 hn2
          · exact ih.1.mpr h1
      · rw [hpair]
        simp only [jsHasKey, jsLookup, if_neg c3, if_neg c4, List.map_cons]
        constructor
        · intro h
          exact List.mem_cons_of_mem _ (ih.2.mp h)
        · intro h
          rcases List.mem_cons.mp h with h1 | h1
          · exact absurd h1 hn2
          · exact ih.2.mpr h1

theorem getW3cTags_exact (o : W3cTagsOptions) (cl : Option (JSObj String))
    (hsub : o.w3cCredentialRecord.credential.credentialSubject = .obj cl)
    (hnd : ((cl.getD []).map Prod.fst).Nodup) :
    getW3cRecordAnonCredsTags o =
      .ok ((if isIndyDid o.w3cCredentialRecord.credential.issuerId then
          w3cBaseTags o ++ w3cMirrorTags o
        else w3cBaseTags o) ++ attrPairTags (cl.getD [])) := by
  have hfresh : ∀ p ∈ mapAttributeRawValuesToAnonCredsCredentialValues (cl.getD []),
      jsLookup (if isIndyDid o.w3cCredentialRecord.credential.issuerId then
        w3cBaseTags o ++ w3cMirrorTags o else w3cBaseTags o) (attrValueKey p.1) = none ∧
      jsLookup (if isIndyDid o.w3cCredentialRecord.credential.issuerId then
        w3cBaseTags o ++ w3cMirrorTags o else w3cBaseTags o) (attrMarkerKey p.1) = none :=
    fun p _ => startTags_attr_fresh o _ p.1
  have hndv : ((mapAttributeRawValuesToAnonCredsCredentialValues (cl.getD [])).map
      Prod.fst).Nodup := by
    simpa [mapAttributeRawValuesToAnonCredsCredentialValues, List.map_map,
      Function.comp] using hnd
  simp only [getW3cRecordAnonCredsTags, hsub]
  rw [setAttrTags_append _ _ hfresh hndv, attrPairTags_eq]

/-- C3 counterexample: with no revocation registry, the derived tag set
still contains the anonCredsRevocationRegistryId and
anonCredsCredentialRevocationId keys (holding undefined), refuting the
claim that optional keys are entirely absent when not applicable. -/
theorem c3_counterexample :
    getW3cRecordAnonCredsTags c3CexOptions =
      .ok (w3cBaseTags c3CexOptions ++ attrPairTags [("name", "Alice")]) ∧
    c3CexOptions.revocationRegistryId = none ∧
    c3CexOptions.credentialRevocationId = none ∧
    jsHasKey (w3cBaseTags c3CexOptions ++ attrPairTags [("name", "Alice")])
      "anonCredsRevocationRegistryId" = true ∧
    jsHasKey (w3cBaseTags c3CexOptions ++ attrPairTags [("name", "Alice")])
      "anonCredsCredentialRevocationId" = true := by
  refine ⟨by decide, rfl, rfl, by decide, by decide⟩

/-- C3 amended: for a non-array subject with distinct claim names, the
derived tag set is exactly the nine fixed entries (seven required keys
plus the two revocation keys, which are always present but hold undefined
when the corresponding input is absent), followed by the five mirror
entries exactly when the issuer id is an indy did, followed by exactly one
value/marker pair per claim name; the revocation keys hold a defined
value exactly when the corresponding input is present, and an attr value
key is present exactly when its marker key is (both exactly for the claim
names of the subject). -/
theorem c3_tag_completeness (o : W3cTagsOptions) (cl : Option (JSObj String))
    (hsub : o.w3cCredentialRecord.credential.credentialSubject = .obj cl)
    (hnd : ((cl.getD []).map Prod.fst).Nodup) :
    getW3cRecordAnonCredsTags o =
      .ok ((if isIndyDid o.w3cCredentialRecord.credential.issuerId then
          w3cBaseTags o ++ w3cMirrorTags o
        else w3cBaseTags o) ++ attrPairTags (cl.getD [])) ∧
    jsHasKey ((if isIndyDid o.w3cCredentialRecord.credential.issuerId then
        w3cBaseTags o ++ w3cMirrorTags o
      else w3cBaseTags o) ++ attrPairTags (cl.getD []))
      "anonCredsRevocationRegistryId" = true ∧
    jsHasKey ((if isIndyDid o.w3cCredentialRecord.credential.issuerId then
        w3cBaseTags o ++ w3cMirrorTags o
      else w3cBaseTags o) ++ attrPairTags (cl.getD []))
      "anonCredsCredentialRevocationId" = true ∧
    tagDefined ((if isIndyDid o.w3cCredentialRecord.credential.issuerId then
        w3cBaseTags o ++ w3cMirrorTags o
      else w3cBaseTags o) ++ attrPairTags (cl.getD []))
      "anonCredsRevocationRegistryId" = o.revocationRegistryId.isSome ∧
    tagDefined ((if isIndyDid o.w3cCredentialRecord.credential.issuerId then
        w3cBaseTags o ++ w3cMirrorTags o
      else w3cBaseTags o) ++ attrPairTags (cl.getD []))
      "anonCredsCredentialRevocationId" = o.credentialRevocationId.isSome ∧
    (∀ n, jsHasKey ((if isIndyDid o.w3cCredentialRecord.credential.issuerId then
        w3cBaseTags o ++ w3cMirrorTags o
      else w3cBaseTags o) ++ attrPairTags (cl.getD [])) (attrValueKey n) = true ↔
      n ∈ (cl.getD []).map Prod.fst) ∧
    (∀ n, jsHasKey ((if isIndyDid o.w3cCredentialRecord.credential.issuerId then
        w3cBaseTags o ++ w3cMirrorTags o
      else w3cBaseTags o) ++ attrPairTags (cl.getD [])) (attrMarkerKey n) = true ↔
      n ∈ (cl.getD []).map Prod.fst) := by
  refine ⟨getW3cTags_exact o cl hsub hnd, ?_, ?_, ?_, ?_, ?_, ?_⟩
  · rw [jsHasKey_append]
    cases hind : isIndyDid o.w3cCredentialRecord.credential.issuerId <;>
      simp [hind, jsHasKey, jsLookup, jsLookup_append, w3cBaseTags, w3cMirrorTags]
  · rw [jsHasKey_append]
    cases hind : isIndyDid o.w3cCredentialRecord.credential.issuerId <;>
      simp [hind, jsHasKey, jsLookup, jsLookup_append, w3cBaseTags, w3cMirrorTags]
  · cases hind : isIndyDid o.w3cCredentialRecord.credential.issuerId <;>
      cases hrev : o.revocationRegistryId <;>
        simp [hind, hrev, tagDefined, jsGet, jsLookup, jsLookup_append, w3cBaseTags,
          w3cMirrorTags, optTV]
  · cases hind : isIndyDid o.w3cCredentialRecord.credential.issuerId <;>
      cases hrev : o.credentialRevocationId <;>
        simp [hind, hrev, tagDefined, jsGet, jsLookup, jsLookup_append, w3cBaseTags,
          w3cMirrorTags, optTV]
  · intro n
    rw [jsHasKey_append]
    have h0 : jsHasKey (if isIndyDid o.w3cCredentialRecord.credential.issuerId then
        w3cBaseTags o ++ w3cMirrorTags o else w3cBaseTags o) (attrValueKey n) = false := by
      simp [jsHasKey, (startTags_attr_fresh o _ n).1]
    rw [h0, Bool.false_or]
    exact (attrPairTags_hasKey (cl.getD []) n).1
  · intro n
    rw [jsHasKey_append]
    have h0 : jsHasKey (if isIndyDid o.w3cCredentialRecord.credential.issuerId then
        w3cBaseTags o ++ w3cMirrorTags o else w3cBaseTags o) (attrMarkerKey n) = false := by
      simp [jsHasKey, (startTags_attr_fresh o _ n).2]
    rw [h0, Bool.false_or]
    exact (attrPairTags_hasKey (cl.getD []) n).2

/-- Witness for the amended C3 at concrete options. -/
theorem c3_tag_completeness_witness :
    getW3cRecordAnonCredsTags c3WitnessOptions =
      .ok ((if isIndyDid c3WitnessOptions.w3cCredentialRecord.credential.issuerId then
          w3cBaseTags c3WitnessOptions ++ w3cMirrorTags c3WitnessOptions
        else w3cBaseTags c3WitnessOptions) ++
        attrPairTags ((some [("name", "Alice")] : Option (JSObj String)).getD [])) ∧
    jsHasKey ((if isIndyDid c3WitnessOptions.w3cCredentialRecord.credential.issuerId then
        w3cBaseTags c3WitnessOptions ++ w3cMirrorTags c3WitnessOptions
      else w3cBaseTags c3WitnessOptions) ++
        attrPairTags ((some [("name", "Alice")] : Option (JSObj String)).getD []))
      "anonCredsRevocationRegistryId" = true ∧
    jsHasKey ((if isIndyDid c3WitnessOptions.w3cCredentialRecord.credential.issuerId then
        w3cBaseTags c3WitnessOptions ++ w3cMirrorTags c3WitnessOptions
      else w3cBaseTags c3WitnessOptions) ++
        attrPairTags ((some [("name", "Alice")] : Option (JSObj String)).getD []))
      "anonCredsCredentialRevocationId" = true ∧
    tagDefined ((if isIndyDid c3WitnessOptions.w3cCredentialRecord.credential.issuerId then
        w3cBaseTags c3WitnessOptions ++ w3cMirrorTags c3WitnessOptions
      else w3cBaseTags c3WitnessOptions) ++
        attrPairTags ((some [("name", "Alice")] : Option (JSObj String)).getD []))
      "anonCredsRevocationRegistryId" = c3WitnessOptions.revocationRegistryId.isSome ∧
    tagDefined ((if isIndyDid c3WitnessOptions.w3cCredentialRecord.credential.issuerId then
        w3cBaseTags c3WitnessOptions ++ w3cMirrorTags c3WitnessOptions
      else w3cBaseTags c3WitnessOptions) ++
        attrPairTags ((some [("name", "Alice")] : Option (JSObj String)).getD []))
      "anonCredsCredentialRevocationId" = c3WitnessOptions.credentialRevocationId.isSome ∧
    (∀ n, jsHasKey
        ((if isIndyDid c3WitnessOptions.w3cCredentialRecord.credential.issuerId then
          w3cBaseTags c3WitnessOptions ++ w3cMirrorTags c3WitnessOptions
        else w3cBaseTags c3WitnessOptions) ++
          attrPairTags ((some [("name", "Alice")] : Option (JSObj String)).getD []))
        (attrValueKey n) = true ↔
      n ∈ ((some [("name", "Alice")] : Option (JSObj String)).getD []).map Prod.fst) ∧
    (∀ n, jsHasKey
        ((if isIndyDid c3WitnessOptions.w3cCredentialRecord.credential.issuerId then
          w3cBaseTags c3WitnessOptions ++ w3cMirrorTags c3WitnessOptions
        else w3cBaseTags c3WitnessOptions) ++
          attrPairTags ((some [("name", "Alice")] : Option (JSObj String)).getD []))
        (attrMarkerKey n) = true ↔
      n ∈ ((some [("name", "Alice")] : Option (JSObj String)).getD []).map Prod.fst) :=
  c3_tag_completeness c3WitnessOptions (some [("name", "Alice")]) (by rfl) (by decide)

/-- C2: a native-variant record and a standards-variant record constructed
from equivalent underlying data project to CredentialInfo values equal in
every field except credentialId.  The seven required tag values must be
non-empty for the standards variant to pass its tag check, and claim
names are distinct as in any JS object. -/
theorem c2_projection_equivalence (d : UnderlyingData) (cid1 cid2 issuerId : String)
    (h1 : d.linkSecretId ≠ "") (h2 : d.methodName ≠ "") (h3 : d.schemaId ≠ "")
    (h4 : d.schemaName ≠ "") (h5 : d.schemaVersion ≠ "") (h6 : d.schemaIssuerId ≠ "")
    (h7 : d.credentialDefinitionId ≠ "")
    (hnd : (d.claims.map Prod.fst).Nodup) :
    ∃ ia ib,
      getAnoncredsCredentialInfoFromRecord (.native (nativeRecordOfData d cid1)) = .ok ia ∧
      getAnoncredsCredentialInfoFromRecord (.w3c (w3cRecordOfData d cid2 issuerId)) =
        .ok ib ∧
      ia.credentialId = cid1 ∧ ib.credentialId = cid2 ∧
      eraseCredentialId ia = eraseCredentialId ib := by
  have hall : ∀ k ∈ requiredTagKeys,
      (jsGet (w3cRecordOfData d cid2 issuerId).tags k).truthy = true := by
    intro k hk
    simp only [requiredTagKeys, List.mem_cons, List.not_mem_nil, or_false] at hk
    rcases hk with rfl | rfl | rfl | rfl | rfl | rfl | rfl <;>
      simp [w3cRecordOfData, jsGet, jsLookup, TagValue.truthy, h1, h2, h3, h4, h5, h6, h7]
  have hmd : (w3cRecordOfData d cid2 issuerId).anoncredsMetadata =
      some ⟨cid2, d.credentialRevocationId, d.linkSecretId, d.methodName⟩ := rfl
  have f1 : strBeginsWith "anonCreds" "anonCredsLinkSecretId" = true := by decide
  have f2 : strBeginsWith "anonCreds" "anonCredsCredentialDefinitionId" = true := by decide
  have f3 : strBeginsWith "anonCreds" "anonCredsSchemaId" = true := by decide
  have f4 : strBeginsWith "anonCreds" "anonCredsSchemaName" = true := by decide
  have f5 : strBeginsWith "anonCreds" "anonCredsSchemaIssuerId" = true := by decide
  have f6 : strBeginsWith "anonCreds" "anonCredsSchemaVersion" = true := by decide
  have f7 : strBeginsWith "anonCreds" "anonCredsMethodName" = true := by decide
  have f8 : strBeginsWith "anonCreds" "anonCredsRevocationRegistryId" = true := by decide
  have f9 : strBeginsWith "anonCreds" "anonCredsCredentialRevocationId" = true := by decide
  have hfil : (w3cRecordOfData d cid2 issuerId).tags.filter
      (fun p => strBeginsWith "anonCreds" p.1) = (w3cRecordOfData d cid2 issuerId).tags := by
    simp [w3cRecordOfData, List.filter_cons, f1, f2, f3, f4, f5, f6, f7, f8, f9]
  have hextract : getAnonCredsTagsFromRecord (w3cRecordOfData d cid2 issuerId) =
      some (w3cRecordOfData d cid2 issuerId).tags := by
    rw [getTags_some_of_truthy _ _ hmd hall, hfil]
  have hnat : getAnoncredsCredentialInfoFromRecord (.native (nativeRecordOfData d cid1)) =
      .ok ⟨d.claims, cid1, .str d.credentialDefinitionId, .str d.schemaId,
        d.credentialRevocationId, d.revocationRegistryId.map .str, d.methodName,
        d.linkSecretId⟩ := by
    simp [getAnoncredsCredentialInfoFromRecord, anoncredsCredentialInfoFromAnoncredsRecord,
      nativeRecordOfData, native_attributes d.claims hnd]
  have hsubj : (w3cRecordOfData d cid2 issuerId).credential.credentialSubject =
      .obj (some d.claims) := rfl
  have g1 : jsGet (w3cRecordOfData d cid2 issuerId).tags
      "anonCredsCredentialDefinitionId" = .str d.credentialDefinitionId := by
    simp [w3cRecordOfData, jsGet, jsLookup]
  have g2 : jsGet (w3cRecordOfData d cid2 issuerId).tags "anonCredsSchemaId" =
      .str d.schemaId := by
    simp [w3cRecordOfData, jsGet, jsLookup]
  have g3 : jsGet (w3cRecordOfData d cid2 issuerId).tags
      "anonCredsRevocationRegistryId" = optTV d.revocationRegistryId := by
    simp [w3cRecordOfData, jsGet, jsLookup]
  have hw3c : getAnoncredsCredentialInfoFromRecord (.w3c (w3cRecordOfData d cid2 issuerId)) =
      .ok ⟨d.claims, cid2, .str d.credentialDefinitionId, .str d.schemaId,
        d.credentialRevocationId, d.revocationRegistryId.map .str, d.methodName,
        d.linkSecretId⟩ := by
    cases hrev : d.revocationRegistryId with
    | none =>
      simp only [getAnoncredsCredentialInfoFromRecord,
        anoncredsCredentialInfoFromW3cRecord, hsubj, hextract, hmd, g1, g2, g3, hrev]
      simp [tagOrNull, optTV]
    | some rid =>
      simp only [getAnoncredsCredentialInfoFromRecord,
        anoncredsCredentialInfoFromW3cRecord, hsubj, hextract, hmd, g1, g2, g3, hrev]
      simp [tagOrNull, optTV]
  exact ⟨_, _, hnat, hw3c, rfl, rfl, rfl⟩

/-- Witness for C2 at concrete underlying data. -/
theorem c2_projection_equivalence_witness :
    ∃ ia ib,
      getAnoncredsCredentialInfoFromRecord
        (.native (nativeRecordOfData c2WitnessData "credential-2a")) = .ok ia ∧
      getAnoncredsCredentialInfoFromRecord
        (.w3c (w3cRecordOfData c2WitnessData "credential-2b" "did:indy:sovrin:issuer-2")) =
        .ok ib ∧
      ia.credentialId = "credential-2a" ∧ ib.credentialId = "credential-2b" ∧
      eraseCredentialId ia = eraseCredentialId ib :=
  c2_projection_equivalence c2WitnessData "credential-2a" "credential-2b"
    "did:indy:sovrin:issuer-2" (by decide) (by decide) (by decide) (by decide) (by decide)
    (by decide) (by decide) (by decide)
